import Mathlib

set_option maxRecDepth 8000

/-!
Verification development for the ShopifyStructuredData schema generation and
validation engine.  The Python sources under `src/core/generator.py`,
`src/ai/enhancer.py`, `src/utils/helpers.py`, `src/utils/constants.py` and
`src/validation/schema_validator.py` are shallowly embedded below:

* JSON-like documents become the `JValue` inductive; Python dictionaries
  become association lists with Python lookup/truthiness semantics
  (`pyGet`, `truthy`).
* The generator works on record types mirroring the Shopify catalog
  payloads (`CatalogProduct`, `CatalogShop`, `CatalogCollection`) and
  produces record types mirroring the emitted JSON-LD documents.
* External effects are abstracted into parameters: `cleanHtml` stands for
  `utils.helpers.clean_html` (HTML stripping via BeautifulSoup),
  `urlRegex` for the compiled URL regular expression used by
  `_is_valid_url`, and `priceValidUntil` for the value returned by
  `generate_price_valid_until()` (which reads the current date).
* `validate_against_google_requirements` returns an `Option`: `none`
  models the `TypeError` Python raises when the extracted `@type` value is
  unhashable (a list or a dict) and is used as a dictionary-membership key.
-/

/-- Characters of Python `str.lower()` restricted to ASCII, which is all the
source vocabulary uses. -/
def asciiLower (c : Char) : Char :=
  if 'A' ≤ c ∧ c ≤ 'Z' then Char.ofNat (c.toNat + 32) else c

/-- Python `str.lower()`. -/
def pyLower (s : String) : String := ⟨s.data.map asciiLower⟩

/-- Python `len` on a string (number of characters). -/
def pyLen (s : String) : Nat := s.data.length

/-- Python `needle in hay` on strings: substring containment. -/
def pyIn (needle hay : String) : Bool := decide (needle.data <:+: hay.data)

/-- Python `s.startswith(pre)`. -/
def pyStartsWith (s pre : String) : Bool := decide (pre.data <+: s.data)

/-- Helper for Python `str.title()`: the boolean records whether the previous
character was alphabetic. -/
def pyTitleAux : Bool → List Char → List Char
  | _, [] => []
  | prevAlpha, c :: cs =>
    if c.isAlpha then
      (if prevAlpha then asciiLower c else c.toUpper) :: pyTitleAux true cs
    else c :: pyTitleAux false cs

/-- Python `str.title()`: capitalise the first character of every
alphabetic run. -/
def pyTitle (s : String) : String := ⟨pyTitleAux false s.data⟩

/-- JSON values as passed to the validators (Python objects built from
parsed JSON / generator output). -/
inductive JValue where
  | null
  | bool (b : Bool)
  | int (n : Int)
  | str (s : String)
  | arr (xs : List JValue)
  | obj (kvs : List (String × JValue))

/-- Python dictionary lookup `d.get(k)` on an association list with unique
keys (the shape Python dict literals and parsed JSON objects have). -/
def pyGet (d : List (String × JValue)) (k : String) : Option JValue :=
  (d.find? (fun e => e.1 = k)).map (fun e => e.2)

/-- Python `d.get(k) == s` for a string literal `s`: true exactly when the
key is present and holds that string. -/
def pyEqStr (v : Option JValue) (s : String) : Bool :=
  match v with
  | some (JValue.str t) => t = s
  | _ => false

/-- Python truthiness of a JSON value (`bool(v)`). -/
def truthy : JValue → Bool
  | JValue.null => false
  | JValue.bool b => b
  | JValue.int n => n != 0
  | JValue.str s => s != ""
  | JValue.arr xs => !xs.isEmpty
  | JValue.obj kvs => !kvs.isEmpty

/-- Whether a JSON value is an object (`isinstance(v, dict)`). -/
def isObjJ : JValue → Bool
  | JValue.obj _ => true
  | _ => false

/-- Python `field in schema` followed by truthiness of the value:
`field in schema and bool(schema[field])`. -/
def presentAndTruthy (d : List (String × JValue)) (k : String) : Bool :=
  ((pyGet d k).map truthy).getD false

/-! ## Constants from `src/utils/constants.py` -/

/-- `CATEGORY_MAPPING` exactly as written in `constants.py`, as the ordered
list of key/value pairs of the dict literal.  Note the source writes the key
`'games'` twice (once under Media, once under Toys & Games). -/
def CATEGORY_MAPPING_SOURCE : List (String × String) := [
  ("apparel", "Apparel & Accessories"),
  ("clothing", "Apparel & Accessories"),
  ("shoes", "Apparel & Accessories"),
  ("accessories", "Apparel & Accessories"),
  ("jewelry", "Apparel & Accessories"),
  ("bags", "Apparel & Accessories"),
  ("electronics", "Electronics"),
  ("computers", "Electronics"),
  ("phones", "Electronics"),
  ("tablets", "Electronics"),
  ("audio", "Electronics"),
  ("cameras", "Electronics"),
  ("home", "Home & Garden"),
  ("furniture", "Home & Garden"),
  ("decor", "Home & Garden"),
  ("kitchen", "Home & Garden"),
  ("appliances", "Home & Garden"),
  ("garden", "Home & Garden"),
  ("beauty", "Health & Beauty"),
  ("cosmetics", "Health & Beauty"),
  ("skincare", "Health & Beauty"),
  ("health", "Health & Beauty"),
  ("wellness", "Health & Beauty"),
  ("supplements", "Health & Beauty"),
  ("books", "Media"),
  ("movies", "Media"),
  ("music", "Media"),
  ("games", "Media"),
  ("food", "Food & Beverages"),
  ("beverages", "Food & Beverages"),
  ("drinks", "Food & Beverages"),
  ("snacks", "Food & Beverages"),
  ("sports", "Sports & Recreation"),
  ("fitness", "Sports & Recreation"),
  ("outdoor", "Sports & Recreation"),
  ("recreation", "Sports & Recreation"),
  ("automotive", "Automotive"),
  ("car", "Automotive"),
  ("motorcycle", "Automotive"),
  ("parts", "Automotive"),
  ("toys", "Toys & Games"),
  ("games", "Toys & Games"),
  ("baby", "Baby & Kids"),
  ("kids", "Baby & Kids"),
  ("children", "Baby & Kids"),
  ("pet", "Pet Supplies"),
  ("pets", "Pet Supplies"),
  ("office", "Office & Business"),
  ("business", "Office & Business"),
  ("industrial", "Industrial & Scientific")]

/-- One assignment `d[k] = v` with Python dict semantics: a repeated key
keeps its original position but takes the new value. -/
def pyDictInsert (d : List (String × String)) (kv : String × String) :
    List (String × String) :=
  if d.any (fun e => e.1 = kv.1) then
    d.map (fun e => if e.1 = kv.1 then (e.1, kv.2) else e)
  else d ++ [kv]

/-- The items of a Python dict literal, in iteration order. -/
def pythonDictItems (l : List (String × String)) : List (String × String) :=
  l.foldl pyDictInsert []

/-- `CATEGORY_MAPPING.items()` as the loops in the source iterate it. -/
def CATEGORY_MAPPING : List (String × String) :=
  pythonDictItems CATEGORY_MAPPING_SOURCE

/-- `REQUIRED_PRODUCT_FIELDS` from `constants.py`. -/
def REQUIRED_PRODUCT_FIELDS : List String :=
  ["name", "description", "image", "offers", "brand"]

/-- `REQUIRED_ORGANIZATION_FIELDS` from `constants.py`. -/
def REQUIRED_ORGANIZATION_FIELDS : List String := ["name", "url"]

/-- The material vocabulary of `extract_materials` in `helpers.py`, in
source order.  Note `'bamboo'` appears twice in the source list. -/
def MATERIALS : List String := [
  "cotton", "polyester", "silk", "wool", "linen", "leather", "suede",
  "denim", "cashmere", "bamboo", "organic cotton", "recycled polyester",
  "stainless steel", "aluminum", "brass", "copper", "silver", "gold",
  "plastic", "wood", "bamboo", "ceramic", "glass", "rubber"]

/-- `GOOGLE_RICH_RESULTS_REQUIREMENTS` from `constants.py`: for each schema
type, the `required` and the `recommended` field lists.  (The Product
entry additionally carries `image_requirements` with `min_width = 160`
and `min_height = 90`; the only use of those numbers, the warning string in
`validate_against_google_requirements`, is inlined there.) -/
def GOOGLE_RICH_RESULTS_REQUIREMENTS :
    List (String × (List String × List String)) := [
  ("Product", (["name", "image", "offers"],
               ["description", "brand", "sku", "aggregateRating"])),
  ("Review", (["reviewBody", "author", "reviewRating"],
              ["datePublished", "publisher"])),
  ("FAQ", (["mainEntity"], ["name"]))]

/-! ## Helpers from `src/utils/helpers.py` -/

/-- `extract_materials(text)` from `helpers.py`: collect the title-cased
vocabulary entries occurring in the lowercased text. -/
def extract_materials (text : String) : List String :=
  if text = "" then []
  else
    let text_lower := pyLower text
    MATERIALS.foldl
      (fun found_materials material =>
        if pyIn material text_lower then found_materials ++ [pyTitle material]
        else found_materials) []

/-- `truncate_text(text, max_length, suffix)` from `helpers.py`: cut at the
last word boundary within the budget and append the suffix. -/
def truncate_text (text : String) (max_length : Nat) (suffix : String) :
    String :=
  if text = "" || pyLen text ≤ max_length then text
  else
    let head := text.data.take max_length
    let truncated :=
      if head.contains ' ' then
        ((head.reverse.dropWhile (fun c => c ≠ ' ')).drop 1).reverse
      else head
    (⟨truncated⟩ : String) ++ suffix

/-! ## Catalog records consumed by `src/core/generator.py`

Each `Option` field models presence/absence of the dictionary key that the
source reads with `.get`; fields the source subscripts directly
(`product['title']`, `product['handle']`, `product['id']`) are plain. -/

structure Variant where
  title : Option String
  sku : Option String
  price : Option String
  inventory_quantity : Option Int
  weight : Option Int
  weight_unit : Option String

structure ShopImage where
  src : String

structure CatalogProduct where
  id : Int
  handle : String
  title : String
  body_html : Option String
  vendor : Option String
  product_type : Option String
  tags : List String
  images : List ShopImage
  variants : List Variant
  collections : List Int

structure CatalogShop where
  name : Option String
  currency : Option String

structure CatalogCollection where
  id : Int
  title : String
  handle : String

/-! ## Emitted JSON-LD documents (field `atype` renders the `@type` key,
`context` the `@context` key) -/

structure SellerSchema where
  atype : String
  name : String

structure OfferSchema where
  atype : String
  price : String
  priceCurrency : String
  availability : String
  sku : String
  priceValidUntil : String
  seller : SellerSchema

structure BrandSchema where
  atype : String
  name : String

structure QuantitativeValueSchema where
  atype : String
  value : Int
  unitCode : String

structure VariantOfferSchema where
  atype : String
  price : String
  availability : String

structure ProductModelSchema where
  atype : String
  name : String
  sku : String
  offers : VariantOfferSchema

structure ProductSchema where
  context : String
  atype : String
  name : String
  description : String
  image : List String
  url : String
  brand : BrandSchema
  sku : String
  offers : List OfferSchema
  category : String
  aggregateRating : Option String
  hasVariant : Option (List ProductModelSchema)
  weight : Option QuantitativeValueSchema

structure ListItemSchema where
  atype : String
  position : Nat
  name : String
  item : String

structure BreadcrumbSchema where
  context : String
  atype : String
  itemListElement : List ListItemSchema

structure AnswerSchema where
  atype : String
  text : String

structure QuestionSchema where
  atype : String
  name : String
  acceptedAnswer : AnswerSchema

structure FAQPageSchema where
  context : String
  atype : String
  mainEntity : List QuestionSchema

/-! ## `src/core/generator.py` (the deterministic, non-AI paths: the source
runs them whenever `ai_enhancer` is absent or `enable_ai_features` is off) -/

/-- `SchemaGenerator._generate_offers(variants, shop_info)`.
`priceValidUntil` stands for the call `generate_price_valid_until()`. -/
def generate_offers (variants : List Variant) (shop_info : CatalogShop)
    (priceValidUntil : String) : List OfferSchema :=
  variants.map (fun variant =>
    { atype := "Offer",
      price := variant.price.getD "0",
      priceCurrency := shop_info.currency.getD "USD",
      availability :=
        if (0 : Int) < variant.inventory_quantity.getD 0 then
          "https://schema.org/InStock"
        else "https://schema.org/OutOfStock",
      sku := variant.sku.getD "",
      priceValidUntil := priceValidUntil,
      seller := { atype := "Organization", name := shop_info.name.getD "Store" } })

/-- `SchemaGenerator._categorize_product(product)` with the AI path
disabled: scan `CATEGORY_MAPPING` against the lowercased product type, then
against each lowercased tag in turn. -/
def categorize_product (product : CatalogProduct) : String :=
  let product_type := pyLower (product.product_type.getD "")
  let tags := product.tags.map pyLower
  match CATEGORY_MAPPING.findSome?
      (fun kv => if pyIn kv.1 product_type then some kv.2 else none) with
  | some category => category
  | none =>
    match tags.findSome? (fun tag =>
        CATEGORY_MAPPING.findSome?
          (fun kv => if pyIn kv.1 tag then some kv.2 else none)) with
    | some category => category
    | none => "Other"

/-- `AIEnhancer._basic_categorization(product)` from `src/ai/enhancer.py`:
scan `CATEGORY_MAPPING` against the single lowercased concatenation
`f"{product_type} {' '.join(tags)} {title}"`. -/
def basic_categorization (product : CatalogProduct) : String :=
  let product_type := pyLower (product.product_type.getD "")
  let tags := product.tags.map pyLower
  let title := pyLower product.title
  let text_to_match :=
    product_type ++ " " ++ String.intercalate " " tags ++ " " ++ title
  match CATEGORY_MAPPING.findSome?
      (fun kv => if pyIn kv.1 text_to_match then some kv.2 else none) with
  | some category => category
  | none => "Other"

/-- Modelled from the spec (§4.2 Categorizer): "build a lowercase
concatenation of `category_tag + tags + title`; scan a fixed
keyword→category table in table-definition order; return the category of
the first keyword whose substring appears in the concatenation", with the
sentinel `"Other"` when no keyword matches.  Stated with `List.find?` to be
compared against the implementations above. -/
def specCategorize (product : CatalogProduct) : String :=
  let text := pyLower (product.product_type.getD "") ++ " " ++
    String.intercalate " " (product.tags.map pyLower) ++ " " ++
    pyLower product.title
  match CATEGORY_MAPPING.find? (fun kv => pyIn kv.1 text) with
  | some kv => kv.2
  | none => "Other"

/-- `SchemaGenerator._generate_variant_schemas(variants)`. -/
def generate_variant_schemas (variants : List Variant) :
    List ProductModelSchema :=
  variants.map (fun variant =>
    { atype := "ProductModel",
      name := variant.title.getD "",
      sku := variant.sku.getD "",
      offers :=
        { atype := "Offer",
          price := variant.price.getD "0",
          availability :=
            if (0 : Int) < variant.inventory_quantity.getD 0 then
              "https://schema.org/InStock"
            else "https://schema.org/OutOfStock" } })

/-- `SchemaGenerator._extract_product_properties(product)`: the optional
`weight` property taken from the first variant when truthy. -/
def extract_product_properties (product : CatalogProduct) :
    Option QuantitativeValueSchema :=
  match product.variants with
  | [] => none
  | v :: _ =>
    if v.weight.getD 0 != 0 then
      some { atype := "QuantitativeValue",
             value := v.weight.getD 0,
             unitCode := v.weight_unit.getD "g" }
    else none

/-- `SchemaGenerator.generate_product_schema(product, shop_info)` on the
non-AI path (`_get_product_rating` always returns `None` in the source, so
`aggregateRating` is always absent). -/
def generate_product_schema (cleanHtml : String → String)
    (shop_domain : String) (priceValidUntil : String)
    (product : CatalogProduct) (shop_info : CatalogShop) : ProductSchema :=
  let clean_description := cleanHtml (product.body_html.getD "")
  let images := product.images.map (fun img => img.src)
  let variants := product.variants
  { context := "https://schema.org/",
    atype := "Product",
    name := product.title,
    description := clean_description,
    image := images,
    url := "https://" ++ shop_domain ++ ".myshopify.com/products/" ++
      product.handle,
    brand := { atype := "Brand",
               name := product.vendor.getD (shop_info.name.getD "Unknown") },
    sku := match variants with
           | [] => product.handle
           | v :: _ => v.sku.getD product.handle,
    offers := generate_offers variants shop_info priceValidUntil,
    category := categorize_product product,
    aggregateRating := none,
    hasVariant :=
      if variants.length > 1 then some (generate_variant_schemas variants)
      else none,
    weight := extract_product_properties product }

/-- `SchemaGenerator.generate_breadcrumb_schema(product, collections)`. -/
def generate_breadcrumb_schema (shop_domain : String)
    (product : CatalogProduct) (collections : List CatalogCollection) :
    BreadcrumbSchema :=
  let breadcrumbs : List ListItemSchema :=
    [{ atype := "ListItem", position := 1, name := "Home",
       item := "https://" ++ shop_domain ++ ".myshopify.com" }]
  let product_collection_ids := product.collections
  let breadcrumbs :=
    if !product_collection_ids.isEmpty && !collections.isEmpty then
      match collections.find?
          (fun coll => product_collection_ids.contains coll.id) with
      | some coll =>
        breadcrumbs ++
          [{ atype := "ListItem", position := breadcrumbs.length + 1,
             name := coll.title,
             item := "https://" ++ shop_domain ++
               ".myshopify.com/collections/" ++ coll.handle }]
      | none => breadcrumbs
    else breadcrumbs
  let breadcrumbs := breadcrumbs ++
    [{ atype := "ListItem", position := breadcrumbs.length + 1,
       name := product.title,
       item := "https://" ++ shop_domain ++ ".myshopify.com/products/" ++
         product.handle }]
  { context := "https://schema.org",
    atype := "BreadcrumbList",
    itemListElement := breadcrumbs }

namespace SchemaGenerator

/-- `SchemaGenerator._generate_basic_faq(product)` from
`src/core/generator.py`: a single question whose answer is the cleaned
description truncated to 200 characters. -/
def generate_basic_faq (cleanHtml : String → String)
    (product : CatalogProduct) : FAQPageSchema :=
  let description := cleanHtml (product.body_html.getD "")
  { context := "https://schema.org",
    atype := "FAQPage",
    mainEntity := [
      { atype := "Question",
        name := "What is " ++ product.title ++ "?",
        acceptedAnswer :=
          { atype := "Answer",
            text :=
              if pyLen description > 200 then
                (⟨description.data.take 200⟩ : String) ++ "..."
              else description } }] }

end SchemaGenerator

namespace AIEnhancer

/-- `AIEnhancer._generate_basic_faq(product)` from `src/ai/enhancer.py`:
one question about the product (when the title is non-empty) with a static
fallback answer for an empty description, plus a generic shipping
question. -/
def generate_basic_faq (cleanHtml : String → String)
    (product : CatalogProduct) : FAQPageSchema :=
  let title := product.title
  let description := cleanHtml (product.body_html.getD "")
  let basic_questions : List QuestionSchema :=
    (if title ≠ "" then
      [{ atype := "Question",
         name := "What is " ++ title ++ "?",
         acceptedAnswer :=
           { atype := "Answer",
             text :=
               if description ≠ "" then truncate_text description 200 "..."
               else title ++ " is available in our store." } }]
     else []) ++
    [{ atype := "Question",
       name := "Do you offer shipping?",
       acceptedAnswer :=
         { atype := "Answer",
           text := "Yes, we offer shipping. Please check our shipping policy for details on delivery times and costs." } }]
  { context := "https://schema.org",
    atype := "FAQPage",
    mainEntity := basic_questions }

end AIEnhancer

/-! ## `src/validation/schema_validator.py` -/

/-- The `ValidationResult` dictionaries returned by the four
`validate_*_schema` functions. -/
structure VResult where
  valid : Bool
  errors : List String
  warnings : List String
  schema_type : String

/-- The result dictionary of `_validate_offers`. -/
structure OffersVResult where
  valid : Bool
  errors : List String

/-- The result dictionary of `_validate_images`. -/
structure ImagesVResult where
  valid : Bool
  warnings : List String

/-- The result dictionary of `validate_against_google_requirements`. -/
structure GoogleVResult where
  valid : Bool
  errors : List String
  warnings : List String
  eligible_for_rich_results : Bool

/-- `result['errors'].append(e); result['valid'] = False`. -/
def vAddErr (r : VResult) (e : String) : VResult :=
  { r with errors := r.errors ++ [e], valid := false }

/-- `result['warnings'].append(w)`. -/
def vAddWarn (r : VResult) (w : String) : VResult :=
  { r with warnings := r.warnings ++ [w] }

/-- `result['errors'].append(e); result['valid'] = False` for
`_validate_offers`. -/
def oAddErr (r : OffersVResult) (e : String) : OffersVResult :=
  { r with errors := r.errors ++ [e], valid := false }

/-- `result['warnings'].append(w)` for `_validate_images`. -/
def iAddWarn (r : ImagesVResult) (w : String) : ImagesVResult :=
  { r with warnings := r.warnings ++ [w] }

/-- `SchemaValidator._is_valid_url(url)`: false for the empty string and
non-strings, otherwise the compiled URL pattern (abstracted as
`urlRegex`). -/
def is_valid_url (urlRegex : String → Bool) (url : JValue) : Bool :=
  match url with
  | JValue.str s => if s = "" then false else urlRegex s
  | _ => false

/-- The body of the `for i, offer in enumerate(offers)` loop of
`SchemaValidator._validate_offers` (the pair carries the 0-based index). -/
def offer_item_step (r : OffersVResult) (p : Nat × JValue) : OffersVResult :=
  match p.2 with
  | JValue.obj offer =>
    let r := if !pyEqStr (pyGet offer "@type") "Offer" then
        oAddErr r s!"Offer {p.1 + 1} must have @type \x27Offer\x27"
      else r
    let r := ["price", "priceCurrency", "availability"].foldl
      (fun r field =>
        if (pyGet offer field).isNone then
          oAddErr r s!"Offer {p.1 + 1} missing required field: {field}"
        else r) r
    match pyGet offer "availability" with
    | some (JValue.str availability) =>
      if !pyStartsWith availability "https://schema.org/" then
        oAddErr r s!"Offer {p.1 + 1} availability should use schema.org URL"
      else r
    | some _ => r
    | none => r
  | _ => oAddErr r s!"Offer {p.1 + 1} must be an object"

/-- `SchemaValidator._validate_offers(offers)`: a non-list argument is
wrapped in a singleton list first. -/
def validate_offers (offers : JValue) : OffersVResult :=
  let offersList := match offers with
    | JValue.arr xs => xs
    | v => [v]
  (offersList.enum).foldl offer_item_step { valid := true, errors := [] }

/-- The body of the image loop of `SchemaValidator._validate_images`. -/
def image_item_step (urlRegex : String → Bool) (r : ImagesVResult)
    (p : Nat × JValue) : ImagesVResult :=
  match p.2 with
  | JValue.str s =>
    if !is_valid_url urlRegex (JValue.str s) then
      iAddWarn r s!"Image {p.1 + 1} has invalid URL format"
    else r
  | JValue.obj image =>
    let r := match pyGet image "@type" with
      | some t =>
        if !pyEqStr (some t) "ImageObject" then
          iAddWarn r s!"Image {p.1 + 1} should have @type \x27ImageObject\x27"
        else r
      | none => r
    if (pyGet image "url").isNone then
      iAddWarn r s!"Image {p.1 + 1} missing URL"
    else r
  | _ => r

/-- `SchemaValidator._validate_images(images)`: a non-list argument is
wrapped in a singleton list when truthy, else replaced by the empty list;
the function only ever emits warnings, never errors, and `valid` stays
`True`. -/
def validate_images (urlRegex : String → Bool) (images : JValue) :
    ImagesVResult :=
  let imagesList := match images with
    | JValue.arr xs => xs
    | v => if truthy v then [v] else []
  if imagesList.isEmpty then
    { valid := true, warnings := ["No product images found"] }
  else
    (imagesList.enum).foldl (image_item_step urlRegex)
      { valid := true, warnings := [] }

/-- The `for field in ...` required-field loop body shared by the product
and organization validators: `if field not in schema or not schema[field]`. -/
def required_field_step (schema : List (String × JValue)) (r : VResult)
    (field : String) : VResult :=
  if !presentAndTruthy schema field then
    vAddErr r s!"Missing required field: {field}"
  else r

/-- `SchemaValidator.validate_product_schema(schema)`. -/
def validate_product_schema (urlRegex : String → Bool)
    (schema : List (String × JValue)) : VResult :=
  let result : VResult :=
    { valid := true, errors := [], warnings := [], schema_type := "Product" }
  let result := if !pyEqStr (pyGet schema "@type") "Product" then
      vAddErr result "Schema type must be \x27Product\x27"
    else result
  let result := REQUIRED_PRODUCT_FIELDS.foldl (required_field_step schema) result
  let result := match pyGet schema "offers" with
    | some offers =>
      let offers_validation := validate_offers offers
      if !offers_validation.valid then
        { result with errors := result.errors ++ offers_validation.errors,
                      valid := false }
      else result
    | none => result
  let result := match pyGet schema "image" with
    | some image =>
      let image_validation := validate_images urlRegex image
      if !image_validation.valid then
        { result with warnings := result.warnings ++ image_validation.warnings }
      else result
    | none => result
  ["brand", "sku", "description", "category"].foldl
    (fun r field =>
      if !presentAndTruthy schema field then
        vAddWarn r s!"Recommended field missing: {field}"
      else r) result

/-- `SchemaValidator.validate_organization_schema(schema)`.  Note the
recommended-field loop checks key presence only (no truthiness). -/
def validate_organization_schema (urlRegex : String → Bool)
    (schema : List (String × JValue)) : VResult :=
  let result : VResult :=
    { valid := true, errors := [], warnings := [],
      schema_type := "Organization" }
  let result := if !pyEqStr (pyGet schema "@type") "Organization" then
      vAddErr result "Schema type must be \x27Organization\x27"
    else result
  let result :=
    REQUIRED_ORGANIZATION_FIELDS.foldl (required_field_step schema) result
  let result := match pyGet schema "url" with
    | some url =>
      if !is_valid_url urlRegex url then vAddErr result "Invalid URL format"
      else result
    | none => result
  ["description", "contactPoint", "address", "sameAs"].foldl
    (fun r field =>
      if (pyGet schema field).isNone then
        vAddWarn r s!"Recommended field missing: {field}"
      else r) result

/-- The body of the breadcrumb-item loop of
`SchemaValidator.validate_breadcrumb_schema`. -/
def breadcrumb_item_step (r : VResult) (p : Nat × JValue) : VResult :=
  match p.2 with
  | JValue.obj item =>
    let r := if !pyEqStr (pyGet item "@type") "ListItem" then
        vAddErr r s!"Breadcrumb item {p.1 + 1} must have @type \x27ListItem\x27"
      else r
    let r := if (pyGet item "position").isNone then
        vAddErr r s!"Breadcrumb item {p.1 + 1} missing position"
      else r
    if (pyGet item "name").isNone then
      vAddErr r s!"Breadcrumb item {p.1 + 1} missing name"
    else r
  | _ => vAddErr r s!"Breadcrumb item {p.1 + 1} must be an object"

/-- `SchemaValidator.validate_breadcrumb_schema(schema)`. -/
def validate_breadcrumb_schema (schema : List (String × JValue)) : VResult :=
  let result : VResult :=
    { valid := true, errors := [], warnings := [],
      schema_type := "BreadcrumbList" }
  let result := if !pyEqStr (pyGet schema "@type") "BreadcrumbList" then
      vAddErr result "Schema type must be \x27BreadcrumbList\x27"
    else result
  match pyGet schema "itemListElement" with
  | none => vAddErr result "Missing required field: itemListElement"
  | some items =>
    match items with
    | JValue.arr itemsList =>
      if itemsList.isEmpty then
        vAddErr result "itemListElement must be a non-empty list"
      else (itemsList.enum).foldl breadcrumb_item_step result
    | _ => vAddErr result "itemListElement must be a non-empty list"

/-- The body of the FAQ-entity loop of
`SchemaValidator.validate_faq_schema`. -/
def faq_item_step (r : VResult) (p : Nat × JValue) : VResult :=
  match p.2 with
  | JValue.obj entity =>
    let r := if !pyEqStr (pyGet entity "@type") "Question" then
        vAddErr r s!"FAQ item {p.1 + 1} must have @type \x27Question\x27"
      else r
    let r := if (pyGet entity "name").isNone then
        vAddErr r s!"FAQ item {p.1 + 1} missing question name"
      else r
    match pyGet entity "acceptedAnswer" with
    | none => vAddErr r s!"FAQ item {p.1 + 1} missing acceptedAnswer"
    | some answer =>
      match answer with
      | JValue.obj answerObj =>
        if !pyEqStr (pyGet answerObj "@type") "Answer" then
          vAddErr r s!"FAQ item {p.1 + 1} acceptedAnswer must have @type \x27Answer\x27"
        else if (pyGet answerObj "text").isNone then
          vAddErr r s!"FAQ item {p.1 + 1} acceptedAnswer missing text"
        else r
      | _ => vAddErr r s!"FAQ item {p.1 + 1} acceptedAnswer must be an object"
  | _ => vAddErr r s!"FAQ item {p.1 + 1} must be an object"

/-- `SchemaValidator.validate_faq_schema(schema)`. -/
def validate_faq_schema (schema : List (String × JValue)) : VResult :=
  let result : VResult :=
    { valid := true, errors := [], warnings := [], schema_type := "FAQPage" }
  let result := if !pyEqStr (pyGet schema "@type") "FAQPage" then
      vAddErr result "Schema type must be \x27FAQPage\x27"
    else result
  match pyGet schema "mainEntity" with
  | none => vAddErr result "Missing required field: mainEntity"
  | some entities =>
    match entities with
    | JValue.arr entityList =>
      if entityList.isEmpty then
        vAddErr result "mainEntity must be a non-empty list"
      else (entityList.enum).foldl faq_item_step result
    | _ => vAddErr result "mainEntity must be a non-empty list"

/-- `SchemaValidator._get_schema_type(schema)` for a dict argument: the
`@type` value if present, else the first `@type` found in a `@graph`
list. -/
def get_schema_type (schema : List (String × JValue)) : Option JValue :=
  match pyGet schema "@type" with
  | some t => some t
  | none =>
    match pyGet schema "@graph" with
    | some (JValue.arr graphItems) =>
      (graphItems.filterMap (fun item =>
        match item with
        | JValue.obj d => pyGet d "@type"
        | _ => none)).head?
    | _ => none

/-- Whether a JSON value can be used as a Python dict-membership key:
lists and dicts are unhashable, so `v in GOOGLE_RICH_RESULTS_REQUIREMENTS`
raises `TypeError` for them. -/
def hashableKey : Option JValue → Bool
  | some (JValue.arr _) => false
  | some (JValue.obj _) => false
  | _ => true

/-- The Google required-field loop body: a missing or falsy required field
appends an error and clears both `valid` and `eligible_for_rich_results`. -/
def google_required_step (schema : List (String × JValue))
    (r : GoogleVResult) (field : String) : GoogleVResult :=
  if !presentAndTruthy schema field then
    { r with errors := r.errors ++ [s!"Google requires field: {field}"],
             valid := false,
             eligible_for_rich_results := false }
  else r

/-- The Google recommended-field loop body: warnings only. -/
def google_recommended_step (schema : List (String × JValue))
    (r : GoogleVResult) (field : String) : GoogleVResult :=
  if !presentAndTruthy schema field then
    { r with warnings := r.warnings ++ [s!"Google recommends field: {field}"] }
  else r

/-- `SchemaValidator.validate_against_google_requirements(schema)`.
Returns `none` when the extracted schema type is unhashable (a list or a
dict), which makes the Python membership test raise `TypeError`. -/
def validate_against_google_requirements
    (schema : List (String × JValue)) : Option GoogleVResult :=
  let result : GoogleVResult :=
    { valid := true, errors := [], warnings := [],
      eligible_for_rich_results := true }
  let schema_type := get_schema_type schema
  if !hashableKey schema_type then none
  else
    match schema_type with
    | some (JValue.str st) =>
      match GOOGLE_RICH_RESULTS_REQUIREMENTS.find? (fun e => e.1 = st) with
      | some entry =>
        let result := entry.2.1.foldl (google_required_step schema) result
        let result := entry.2.2.foldl (google_recommended_step schema) result
        let result :=
          if st = "Product" && (pyGet schema "image").isSome then
            { result with warnings := result.warnings ++
                ["Ensure images meet Google requirements: min 160x90 pixels"] }
          else result
        some result
      | none => some result
    | _ => some result

/-- The Google-required field list of a document with the given extracted
schema type (empty for types outside the rule table). -/
def google_required_fields (schema_type : Option JValue) : List String :=
  match schema_type with
  | some (JValue.str st) =>
    ((GOOGLE_RICH_RESULTS_REQUIREMENTS.find? (fun e => e.1 = st)).map
      (fun e => e.2.1)).getD []
  | _ => []

/-- The spec invariant on `ValidationResult`: `valid` is false exactly when
`errors` is non-empty. -/
def VInv (r : VResult) : Prop := r.valid = false ↔ r.errors ≠ []

/-- The same invariant for `_validate_offers` results. -/
def OInv (r : OffersVResult) : Prop := r.valid = false ↔ r.errors ≠ []

/-! ## Concrete sample inputs used by counterexamples and witnesses -/

/-- A product with title `Widget` and no description. -/
def c5Product : CatalogProduct :=
  { id := 1, handle := "widget", title := "Widget", body_html := none,
    vendor := none, product_type := none, tags := [], images := [],
    variants := [], collections := [] }

/-- A product whose only category keyword occurs in the title. -/
def c6Product : CatalogProduct :=
  { id := 2, handle := "classic-shoes", title := "shoes", body_html := none,
    vendor := none, product_type := none, tags := [], images := [],
    variants := [], collections := [] }

/-- A variant whose `sku` key is present but blank. -/
def c8Variant : Variant :=
  { title := none, sku := some "", price := none,
    inventory_quantity := none, weight := none, weight_unit := none }

/-- A product whose first variant has a blank SKU. -/
def c8Product : CatalogProduct :=
  { id := 3, handle := "widget-1", title := "Widget", body_html := none,
    vendor := none, product_type := none, tags := [], images := [],
    variants := [c8Variant], collections := [] }

/-- A shop record with no name or currency key. -/
def c8Shop : CatalogShop := { name := none, currency := none }

/-! ## Claim theorems -/

/-- C1: for every product and shop record, the offers list of the generated
Product schema is `_generate_offers` of the variants, it has exactly one
offer per variant in variant order, and the i-th offer's availability is
the InStock URI exactly when the i-th variant's `inventory_quantity`
(defaulting to 0 when absent) is strictly positive, the OutOfStock URI
otherwise. -/
theorem claim_C1_offers_availability (cleanHtml : String → String)
    (shop_domain priceValidUntil : String) (product : CatalogProduct)
    (shop_info : CatalogShop) :
    (generate_product_schema cleanHtml shop_domain priceValidUntil product
        shop_info).offers
      = generate_offers product.variants shop_info priceValidUntil
    ∧ (generate_offers product.variants shop_info priceValidUntil).length
      = product.variants.length
    ∧ (generate_offers product.variants shop_info priceValidUntil).map
        (fun o => o.availability)
      = product.variants.map (fun v =>
          if (0 : Int) < v.inventory_quantity.getD 0 then
            "https://schema.org/InStock"
          else "https://schema.org/OutOfStock") := by
  refine ⟨rfl, ?_, ?_⟩
  · simp [generate_offers]
  · simp [generate_offers]

/-- C3: for every product and collection list, the generated BreadcrumbList
is non-empty, starts with the Home item at position 1, carries positions
exactly 1, 2, ..., n in list order, and ends with an item named after the
product's title. -/
theorem claim_C3_breadcrumb_positions (shop_domain : String)
    (product : CatalogProduct) (collections : List CatalogCollection) :
    (generate_breadcrumb_schema shop_domain product
        collections).itemListElement ≠ []
    ∧ (generate_breadcrumb_schema shop_domain product
        collections).itemListElement.head?
      = some { atype := "ListItem", position := 1, name := "Home",
               item := "https://" ++ shop_domain ++ ".myshopify.com" }
    ∧ (generate_breadcrumb_schema shop_domain product
        collections).itemListElement.map (fun it => it.position)
      = List.range' 1 (generate_breadcrumb_schema shop_domain product
          collections).itemListElement.length
    ∧ ((generate_breadcrumb_schema shop_domain product
        collections).itemListElement.getLast?.map (fun it => it.name))
      = some product.title := by
  unfold generate_breadcrumb_schema
  dsimp only
  split
  · split
    · exact ⟨by simp, rfl, rfl, by simp⟩
    · exact ⟨by simp, rfl, rfl, by simp⟩
  · exact ⟨by simp, rfl, rfl, by simp⟩

/-- C5 counterexample: for the product with title `Widget` and an empty
description, the `SchemaGenerator._generate_basic_faq` answer text is the
empty string, not a static fallback sentence. -/
theorem claim_C5_counterexample_empty_answer :
    (SchemaGenerator.generate_basic_faq (fun s => s) c5Product).mainEntity.map
      (fun q => q.acceptedAnswer.text) = [""] := rfl

/-- C5 amended: for a product whose cleaned description is empty, the
generator's basic FAQ has exactly one Question whose answer text is the
empty string, while the AI enhancer's basic-FAQ fallback (for a non-empty
title) emits two entities whose first answer is the static fallback
sentence. -/
theorem claim_C5_basic_faq_empty_description (cleanHtml : String → String)
    (product : CatalogProduct)
    (h : cleanHtml (product.body_html.getD "") = "") :
    (SchemaGenerator.generate_basic_faq cleanHtml product).mainEntity.map
        (fun q => (q.name, q.acceptedAnswer.text))
      = [("What is " ++ product.title ++ "?", "")]
    ∧ (product.title ≠ "" →
        (AIEnhancer.generate_basic_faq cleanHtml product).mainEntity.map
            (fun q => q.acceptedAnswer.text)
          = [product.title ++ " is available in our store.",
             "Yes, we offer shipping. Please check our shipping policy for details on delivery times and costs."]) := by
  constructor
  · simp [SchemaGenerator.generate_basic_faq, h, pyLen]
  · intro ht
    simp [AIEnhancer.generate_basic_faq, h, ht]

/-- C5 witness: the amended statement evaluated on the `Widget` product. -/
theorem claim_C5_witness :
    (SchemaGenerator.generate_basic_faq (fun _ => "") c5Product).mainEntity.map
        (fun q => (q.name, q.acceptedAnswer.text))
      = [("What is " ++ c5Product.title ++ "?", "")] :=
  (claim_C5_basic_faq_empty_description (fun _ => "") c5Product rfl).1

/-- C8 counterexample: a product whose first variant carries a blank SKU
gets `sku = ""` in its Product schema, not the handle `widget-1`. -/
theorem claim_C8_counterexample_blank_sku :
    (generate_product_schema (fun s => s) "demo" "2026-04-01" c8Product
        c8Shop).sku = ""
    ∧ c8Product.handle = "widget-1" := ⟨rfl, rfl⟩

/-- C8 amended: the Product schema's `sku` is the handle when there is no
variant, and otherwise the first variant's `sku` value with the handle used
only when the `sku` key is absent (a present blank SKU is kept). -/
theorem claim_C8_sku_first_variant (cleanHtml : String → String)
    (shop_domain priceValidUntil : String) (product : CatalogProduct)
    (shop_info : CatalogShop) :
    (product.variants = [] →
      (generate_product_schema cleanHtml shop_domain priceValidUntil product
          shop_info).sku = product.handle)
    ∧ (∀ v vs, product.variants = v :: vs →
        (generate_product_schema cleanHtml shop_domain priceValidUntil
            product shop_info).sku = v.sku.getD product.handle) := by
  constructor
  · intro h
    simp [generate_product_schema, h]
  · intro v vs h
    simp [generate_product_schema, h]

/-- C8 witness: the amended statement evaluated on the blank-SKU product. -/
theorem claim_C8_witness :
    (generate_product_schema (fun s => s) "demo" "2026-04-01" c8Product
        c8Shop).sku = "" :=
  (claim_C8_sku_first_variant (fun s => s) "demo" "2026-04-01" c8Product
    c8Shop).2 c8Variant [] rfl

/-- C10: the Google rule table is keyed exactly by Product, Review and FAQ,
and any document whose extracted `@type` is any other string (for example
`FAQPage` or `BreadcrumbList`) validates as eligible with no errors and no
warnings, regardless of content. -/
theorem claim_C10_google_table_keys :
    GOOGLE_RICH_RESULTS_REQUIREMENTS.map Prod.fst = ["Product", "Review", "FAQ"]
    ∧ ∀ (schema : List (String × JValue)) (t : String),
        get_schema_type schema = some (JValue.str t) →
        t ≠ "Product" → t ≠ "Review" → t ≠ "FAQ" →
        validate_against_google_requirements schema
          = some { valid := true, errors := [], warnings := [],
                   eligible_for_rich_results := true } := by
  refine ⟨rfl, ?_⟩
  intro schema t h h1 h2 h3
  unfold validate_against_google_requirements
  rw [h]
  simp [hashableKey, GOOGLE_RICH_RESULTS_REQUIREMENTS, List.find?,
    Ne.symm h1, Ne.symm h2, Ne.symm h3]

/-- C10 witness: a generated-FAQ-style document with `@type = "FAQPage"`
and even an empty `mainEntity` is reported eligible with no diagnostics. -/
theorem claim_C10_witness :
    validate_against_google_requirements
      [("@type", JValue.str "FAQPage"), ("mainEntity", JValue.arr [])]
      = some { valid := true, errors := [], warnings := [],
               eligible_for_rich_results := true } :=
  claim_C10_google_table_keys.2 _ "FAQPage" rfl (by decide) (by decide)
    (by decide)

/-! ## Helper lemmas -/

/-- A guarded `findSome?` is `find?` followed by projection. -/
theorem findSome?_guard_eq_find? {α β : Type} (p : α → Bool) (f : α → β) :
    ∀ l : List α,
      (l.findSome? (fun a => if p a then some (f a) else none))
        = (l.find? p).map f := by
  intro l
  induction l with
  | nil => rfl
  | cons a l ih =>
    by_cases h : p a <;> simp [List.findSome?_cons, List.find?_cons, h, ih]

/-- The guarded `findSome?` used by the categorizers, rewritten through
`find?`. -/
theorem findSome?_category (text : String) :
    CATEGORY_MAPPING.findSome?
        (fun kv => if pyIn kv.1 text then some kv.2 else none)
      = (CATEGORY_MAPPING.find? (fun kv => pyIn kv.1 text)).map
          (fun kv => kv.2) :=
  findSome?_guard_eq_find? (fun kv => pyIn kv.1 text) (fun kv => kv.2)
    CATEGORY_MAPPING

/-- A successful guarded scan of a key/value table returns one of the
table's values. -/
theorem mem_snd_of_findSome?_guard {l : List (String × String)}
    {p : String × String → Bool} {c : String}
    (h : l.findSome? (fun kv => if p kv then some kv.2 else none) = some c) :
    c ∈ l.map Prod.snd := by
  obtain ⟨kv, hmem, hkv⟩ := List.exists_of_findSome?_eq_some h
  by_cases hp : p kv
  · rw [if_pos hp] at hkv
    obtain rfl : kv.2 = c := by injection hkv
    exact List.mem_map_of_mem _ hmem
  · rw [if_neg hp] at hkv
    cases hkv

/-- Accumulating conditional appends in a left fold is filtering followed
by mapping. -/
theorem foldl_append_filter_map {α β : Type} (p : α → Bool) (f : α → β) :
    ∀ (l : List α) (acc : List β),
      l.foldl (fun acc a => if p a then acc ++ [f a] else acc) acc
        = acc ++ (l.filter p).map f := by
  intro l
  induction l with
  | nil => intro acc; simp
  | cons a l ih =>
    intro acc
    by_cases h : p a <;> simp [List.filter_cons, h, ih]

/-- C6 counterexample: for a product whose only category keyword occurs in
the title, `_categorize_product` returns `Other` although the first table
keyword matching the concatenation of category tag, tags and title is
`shoes`, whose category `_basic_categorization` (and the spec algorithm)
returns. -/
theorem claim_C6_counterexample_title_ignored :
    categorize_product c6Product = "Other"
    ∧ specCategorize c6Product = "Apparel & Accessories"
    ∧ basic_categorization c6Product = "Apparel & Accessories" :=
  ⟨rfl, rfl, rfl⟩

/-- C6 amended: both deterministic categorizers are total, returning a
category-table value or the sentinel `Other`; `_basic_categorization`
returns the category of the first table keyword (in dict iteration order)
occurring in the lowercase concatenation of category tag, tags and title,
exactly as the spec algorithm states, whereas `_categorize_product`'s
fallback ignores the title and scans the product type first, then each tag
in turn. -/
theorem claim_C6_categorizer_contract (product : CatalogProduct) :
    (categorize_product product = "Other"
      ∨ categorize_product product ∈ CATEGORY_MAPPING.map Prod.snd)
    ∧ (basic_categorization product = "Other"
      ∨ basic_categorization product ∈ CATEGORY_MAPPING.map Prod.snd)
    ∧ basic_categorization product = specCategorize product := by
  refine ⟨?_, ?_, ?_⟩
  · unfold categorize_product
    dsimp only
    split
    next c h1 => exact Or.inr (mem_snd_of_findSome?_guard h1)
    next h1 =>
      split
      next c h2 =>
        obtain ⟨tag, htag, hkv⟩ := List.exists_of_findSome?_eq_some h2
        exact Or.inr (mem_snd_of_findSome?_guard hkv)
      next => exact Or.inl rfl
  · unfold basic_categorization
    dsimp only
    split
    next c h1 => exact Or.inr (mem_snd_of_findSome?_guard h1)
    next h1 => exact Or.inl rfl
  · unfold basic_categorization specCategorize
    dsimp only
    rw [findSome?_category]
    cases h : CATEGORY_MAPPING.find? (fun kv =>
      pyIn kv.1 (pyLower (product.product_type.getD "") ++ " " ++
        String.intercalate " " (product.tags.map pyLower) ++ " " ++
        pyLower product.title)) <;> simp [h]

/-- C6 witness: the refinement equation evaluated on the sample product. -/
theorem claim_C6_witness :
    basic_categorization c6Product = specCategorize c6Product :=
  (claim_C6_categorizer_contract c6Product).2.2

/-- C7 counterexample: the vocabulary lists `bamboo` twice, so
`extract_materials` returns a duplicated `Bamboo`. -/
theorem claim_C7_counterexample_duplicate_bamboo :
    extract_materials "bamboo" = ["Bamboo", "Bamboo"] := rfl

/-- C7 amended: `extract_materials` returns the title-cased vocabulary
entries occurring case-insensitively in the text, one output entry per
vocabulary entry; a name is returned exactly when some vocabulary entry
matching the lowercased text title-cases to it, and no name other than
`Bamboo` (whose vocabulary entry is listed twice) can appear more than
once. -/
theorem claim_C7_extract_materials (text : String) :
    extract_materials text
      = (if text = "" then []
         else (MATERIALS.filter (fun m => pyIn m (pyLower text))).map pyTitle)
    ∧ (∀ name, name ∈ extract_materials text ↔
        (¬text = "" ∧ ∃ m, m ∈ MATERIALS ∧ pyIn m (pyLower text) = true
          ∧ pyTitle m = name))
    ∧ (∀ name, name ≠ "Bamboo" → (extract_materials text).count name ≤ 1) := by
  have h1 : extract_materials text
      = (if text = "" then []
         else (MATERIALS.filter (fun m => pyIn m (pyLower text))).map
           pyTitle) := by
    unfold extract_materials
    split
    · rfl
    · exact foldl_append_filter_map _ _ _ []
  refine ⟨h1, ?_, ?_⟩
  · intro name
    rw [h1]
    split
    next he => simp [he]
    next he =>
      simp only [List.mem_map, List.mem_filter, he, not_false_iff, true_and]
      aesop
  · intro name hname
    rw [h1]
    split
    · simp
    · have hsub : ((MATERIALS.filter (fun m => pyIn m (pyLower text))).map
          pyTitle).Sublist (MATERIALS.map pyTitle) :=
        (List.filter_sublist _).map _
      refine le_trans (hsub.count_le name) ?_
      have hp : (name != "Bamboo") = true := by
        simpa using hname
      rw [← List.count_filter (p := fun s => s != "Bamboo") hp]
      have hlit : (MATERIALS.map pyTitle).filter (fun s => s != "Bamboo")
          = ["Cotton", "Polyester", "Silk", "Wool", "Linen", "Leather",
             "Suede", "Denim", "Cashmere", "Organic Cotton",
             "Recycled Polyester", "Stainless Steel", "Aluminum", "Brass",
             "Copper", "Silver", "Gold", "Plastic", "Wood", "Ceramic",
             "Glass", "Rubber"] := rfl
      rw [hlit]
      exact List.nodup_iff_count_le_one.mp (by decide) name

/-- C7 witness: the count bound evaluated on a matching text. -/
theorem claim_C7_witness :
    (extract_materials "bamboo and cotton").count "Cotton" ≤ 1 :=
  (claim_C7_extract_materials "bamboo and cotton").2.2 "Cotton" (by decide)

/-! ## The `valid` / `errors` invariant (C2) -/

theorem vInv_addErr (r : VResult) (e : String) : VInv (vAddErr r e) := by
  simp [VInv, vAddErr]

theorem vInv_addWarn {r : VResult} (h : VInv r) (w : String) :
    VInv (vAddWarn r w) := by
  simpa [VInv, vAddWarn] using h

theorem vInv_warnings_update (r : VResult) (w : List String) (h : VInv r) :
    VInv { r with warnings := w } := by
  simpa [VInv] using h

theorem oInv_addErr (r : OffersVResult) (e : String) : OInv (oAddErr r e) := by
  simp [OInv, oAddErr]

theorem vInv_foldl {α : Type} {f : VResult → α → VResult}
    (hf : ∀ r a, VInv r → VInv (f r a)) :
    ∀ (l : List α) (r : VResult), VInv r → VInv (l.foldl f r) := by
  intro l
  induction l with
  | nil => intro r h; exact h
  | cons a l ih => intro r h; exact ih _ (hf _ _ h)

theorem oInv_foldl {α : Type} {f : OffersVResult → α → OffersVResult}
    (hf : ∀ r a, OInv r → OInv (f r a)) :
    ∀ (l : List α) (r : OffersVResult), OInv r → OInv (l.foldl f r) := by
  intro l
  induction l with
  | nil => intro r h; exact h
  | cons a l ih => intro r h; exact ih _ (hf _ _ h)

theorem vInv_type_check (r : VResult) (c : Bool) (e : String) (h : VInv r) :
    VInv (if c then vAddErr r e else r) := by
  split
  · exact vInv_addErr _ _
  · exact h

theorem vInv_required_step (schema : List (String × JValue)) :
    ∀ (r : VResult) (f : String), VInv r →
      VInv (required_field_step schema r f) := by
  intro r f h
  unfold required_field_step
  split
  · exact vInv_addErr _ _
  · exact h

theorem vInv_breadcrumb_step :
    ∀ (r : VResult) (p : Nat × JValue), VInv r →
      VInv (breadcrumb_item_step r p) := by
  intro r p h
  rcases p with ⟨i, v⟩
  cases v
  all_goals dsimp only [breadcrumb_item_step]
  all_goals repeat' split
  all_goals first | exact vInv_addErr _ _ | exact h

theorem vInv_faq_step :
    ∀ (r : VResult) (p : Nat × JValue), VInv r → VInv (faq_item_step r p) := by
  intro r p h
  rcases p with ⟨i, v⟩
  cases v
  all_goals dsimp only [faq_item_step]
  all_goals repeat' split
  all_goals first | exact vInv_addErr _ _ | exact h

theorem oInv_offer_step :
    ∀ (r : OffersVResult) (p : Nat × JValue), OInv r →
      OInv (offer_item_step r p) := by
  intro r p h
  rcases p with ⟨i, v⟩
  cases v
  all_goals dsimp only [offer_item_step, List.foldl]
  all_goals repeat' split
  all_goals first | exact oInv_addErr _ _ | exact h

theorem oInv_validate_offers (offers : JValue) :
    OInv (validate_offers offers) := by
  unfold validate_offers
  dsimp only
  exact oInv_foldl oInv_offer_step _ _ (by simp [OInv])

theorem vInv_offers_merge (r : VResult) (ov : OffersVResult) (hov : OInv ov)
    (h : VInv r) :
    VInv (if !ov.valid then
      { r with errors := r.errors ++ ov.errors, valid := false } else r) := by
  split
  next hc =>
    have hne : ov.errors ≠ [] := hov.mp (by simpa using hc)
    simp [VInv, hne]
  next => exact h

theorem vInv_validate_product (urlRegex : String → Bool)
    (schema : List (String × JValue)) :
    VInv (validate_product_schema urlRegex schema) := by
  unfold validate_product_schema
  dsimp only
  refine vInv_foldl ?_ _ _ ?_
  · intro r a h
    dsimp only
    split
    · exact vInv_addWarn h _
    · exact h
  · split
    · split
      · apply vInv_warnings_update
        split
        · exact vInv_offers_merge _ _ (oInv_validate_offers _)
            (vInv_foldl (vInv_required_step schema) _ _
              (vInv_type_check _ _ _ (by simp [VInv])))
        · exact vInv_foldl (vInv_required_step schema) _ _
            (vInv_type_check _ _ _ (by simp [VInv]))
      · split
        · exact vInv_offers_merge _ _ (oInv_validate_offers _)
            (vInv_foldl (vInv_required_step schema) _ _
              (vInv_type_check _ _ _ (by simp [VInv])))
        · exact vInv_foldl (vInv_required_step schema) _ _
            (vInv_type_check _ _ _ (by simp [VInv]))
    · split
      · exact vInv_offers_merge _ _ (oInv_validate_offers _)
          (vInv_foldl (vInv_required_step schema) _ _
            (vInv_type_check _ _ _ (by simp [VInv])))
      · exact vInv_foldl (vInv_required_step schema) _ _
          (vInv_type_check _ _ _ (by simp [VInv]))

theorem vInv_validate_organization (urlRegex : String → Bool)
    (schema : List (String × JValue)) :
    VInv (validate_organization_schema urlRegex schema) := by
  unfold validate_organization_schema
  dsimp only
  refine vInv_foldl ?_ _ _ ?_
  · intro r a h
    dsimp only
    split
    · exact vInv_addWarn h _
    · exact h
  · cases hurl : pyGet schema "url" with
    | none =>
      exact vInv_foldl (vInv_required_step schema) _ _
        (vInv_type_check _ _ _ (by simp [VInv]))
    | some url =>
      exact vInv_type_check _ _ _
        (vInv_foldl (vInv_required_step schema) _ _
          (vInv_type_check _ _ _ (by simp [VInv])))

theorem vInv_validate_breadcrumb (schema : List (String × JValue)) :
    VInv (validate_breadcrumb_schema schema) := by
  unfold validate_breadcrumb_schema
  dsimp only
  repeat' split
  all_goals first
    | exact vInv_addErr _ _
    | exact vInv_foldl vInv_breadcrumb_step _ _ (vInv_addErr _ _)
    | exact vInv_foldl vInv_breadcrumb_step _ _ (by simp [VInv])

theorem vInv_validate_faq (schema : List (String × JValue)) :
    VInv (validate_faq_schema schema) := by
  unfold validate_faq_schema
  dsimp only
  repeat' split
  all_goals first
    | exact vInv_addErr _ _
    | exact vInv_foldl vInv_faq_step _ _ (vInv_addErr _ _)
    | exact vInv_foldl vInv_faq_step _ _ (by simp [VInv])

/-- C2: for every input document, each of the four validators returns a
result whose `valid` flag is false exactly when its `errors` list is
non-empty (warnings never affect it). -/
theorem claim_C2_valid_iff_errors (urlRegex : String → Bool)
    (schema : List (String × JValue)) :
    ((validate_product_schema urlRegex schema).valid = false ↔
      (validate_product_schema urlRegex schema).errors ≠ [])
    ∧ ((validate_organization_schema urlRegex schema).valid = false ↔
      (validate_organization_schema urlRegex schema).errors ≠ [])
    ∧ ((validate_breadcrumb_schema schema).valid = false ↔
      (validate_breadcrumb_schema schema).errors ≠ [])
    ∧ ((validate_faq_schema schema).valid = false ↔
      (validate_faq_schema schema).errors ≠ []) :=
  ⟨vInv_validate_product urlRegex schema,
   vInv_validate_organization urlRegex schema,
   vInv_validate_breadcrumb schema,
   vInv_validate_faq schema⟩

/-- C2 witness: the invariant evaluated on an empty document. -/
theorem claim_C2_witness :
    (validate_product_schema (fun _ => false) []).valid = false ↔
      (validate_product_schema (fun _ => false) []).errors ≠ [] :=
  (claim_C2_valid_iff_errors (fun _ => false) []).1

/-! ## Itemized errors for malformed substructure (C9) -/

theorem mem_of_mem_prefix {a : String} {l1 l2 : List String} (h : a ∈ l1)
    (hp : l1 <+: l2) : a ∈ l2 :=
  hp.sublist.subset h

theorem errors_prefix_foldl {f : VResult → Nat × JValue → VResult}
    (hf : ∀ r p, r.errors <+: (f r p).errors) :
    ∀ (l : List (Nat × JValue)) (r : VResult),
      r.errors <+: (l.foldl f r).errors := by
  intro l
  induction l with
  | nil => intro r; exact List.prefix_rfl
  | cons a l ih => intro r; exact (hf r a).trans (ih (f r a))

theorem oErrors_prefix_foldl {f : OffersVResult → Nat × JValue → OffersVResult}
    (hf : ∀ r p, r.errors <+: (f r p).errors) :
    ∀ (l : List (Nat × JValue)) (r : OffersVResult),
      r.errors <+: (l.foldl f r).errors := by
  intro l
  induction l with
  | nil => intro r; exact List.prefix_rfl
  | cons a l ih => intro r; exact (hf r a).trans (ih (f r a))

theorem breadcrumb_step_prefix :
    ∀ (r : VResult) (p : Nat × JValue),
      r.errors <+: (breadcrumb_item_step r p).errors := by
  intro r p
  rcases p with ⟨i, v⟩
  cases v
  all_goals dsimp only [breadcrumb_item_step]
  all_goals repeat' split
  all_goals try simp only [vAddErr, List.append_assoc]
  all_goals first | exact List.prefix_rfl | exact List.prefix_append _ _

theorem faq_step_prefix :
    ∀ (r : VResult) (p : Nat × JValue),
      r.errors <+: (faq_item_step r p).errors := by
  intro r p
  rcases p with ⟨i, v⟩
  cases v
  all_goals dsimp only [faq_item_step]
  all_goals repeat' split
  all_goals try simp only [vAddErr, List.append_assoc]
  all_goals first | exact List.prefix_rfl | exact List.prefix_append _ _

theorem offer_step_prefix :
    ∀ (r : OffersVResult) (p : Nat × JValue),
      r.errors <+: (offer_item_step r p).errors := by
  intro r p
  rcases p with ⟨i, v⟩
  cases v
  all_goals dsimp only [offer_item_step, List.foldl]
  all_goals repeat' split
  all_goals try simp only [oAddErr, List.append_assoc]
  all_goals first | exact List.prefix_rfl | exact List.prefix_append _ _

theorem breadcrumb_err_mem (xs : List JValue) :
    ∀ (n : Nat) (r : VResult) (i : Nat) (v : JValue),
      xs.get? i = some v → isObjJ v = false →
      s!"Breadcrumb item {n + i + 1} must be an object"
        ∈ ((List.enumFrom n xs).foldl breadcrumb_item_step r).errors := by
  induction xs with
  | nil =>
    intro n r i v h hv
    simp at h
  | cons y ys ih =>
    intro n r i v h hv
    cases i with
    | zero =>
      rw [List.get?_cons_zero] at h
      injection h with h2
      rw [h2]
      dsimp only [List.enumFrom, List.foldl]
      apply mem_of_mem_prefix ?_ (errors_prefix_foldl breadcrumb_step_prefix _ _)
      cases v
      case obj kvs => simp [isObjJ] at hv
      all_goals simp [breadcrumb_item_step, vAddErr]
    | succ j =>
      rw [List.get?_cons_succ] at h
      dsimp only [List.enumFrom, List.foldl]
      rw [show n + (j + 1) + 1 = n + 1 + j + 1 from by omega]
      exact ih (n + 1) (breadcrumb_item_step r (n, y)) j v h hv

theorem faq_err_mem (xs : List JValue) :
    ∀ (n : Nat) (r : VResult) (i : Nat) (v : JValue),
      xs.get? i = some v → isObjJ v = false →
      s!"FAQ item {n + i + 1} must be an object"
        ∈ ((List.enumFrom n xs).foldl faq_item_step r).errors := by
  induction xs with
  | nil =>
    intro n r i v h hv
    simp at h
  | cons y ys ih =>
    intro n r i v h hv
    cases i with
    | zero =>
      rw [List.get?_cons_zero] at h
      injection h with h2
      rw [h2]
      dsimp only [List.enumFrom, List.foldl]
      apply mem_of_mem_prefix ?_ (errors_prefix_foldl faq_step_prefix _ _)
      cases v
      case obj kvs => simp [isObjJ] at hv
      all_goals simp [faq_item_step, vAddErr]
    | succ j =>
      rw [List.get?_cons_succ] at h
      dsimp only [List.enumFrom, List.foldl]
      rw [show n + (j + 1) + 1 = n + 1 + j + 1 from by omega]
      exact ih (n + 1) (faq_item_step r (n, y)) j v h hv

theorem faq_answer_err_mem (xs : List JValue) :
    ∀ (n : Nat) (r : VResult) (i : Nat) (entity : List (String × JValue))
      (answer : JValue),
      xs.get? i = some (JValue.obj entity) →
      pyGet entity "acceptedAnswer" = some answer →
      isObjJ answer = false →
      s!"FAQ item {n + i + 1} acceptedAnswer must be an object"
        ∈ ((List.enumFrom n xs).foldl faq_item_step r).errors := by
  induction xs with
  | nil =>
    intro n r i entity answer h ha hv
    simp at h
  | cons y ys ih =>
    intro n r i entity answer h ha hv
    cases i with
    | zero =>
      rw [List.get?_cons_zero] at h
      injection h with h2
      rw [h2]
      dsimp only [List.enumFrom, List.foldl]
      apply mem_of_mem_prefix ?_ (errors_prefix_foldl faq_step_prefix _ _)
      dsimp only [faq_item_step]
      rw [ha]
      cases answer
      case obj kvs => simp [isObjJ] at hv
      all_goals simp [vAddErr]
    | succ j =>
      rw [List.get?_cons_succ] at h
      dsimp only [List.enumFrom, List.foldl]
      rw [show n + (j + 1) + 1 = n + 1 + j + 1 from by omega]
      exact ih (n + 1) (faq_item_step r (n, y)) j entity answer h ha hv

theorem offer_err_mem (xs : List JValue) :
    ∀ (n : Nat) (r : OffersVResult) (i : Nat) (v : JValue),
      xs.get? i = some v → isObjJ v = false →
      s!"Offer {n + i + 1} must be an object"
        ∈ ((List.enumFrom n xs).foldl offer_item_step r).errors := by
  induction xs with
  | nil =>
    intro n r i v h hv
    simp at h
  | cons y ys ih =>
    intro n r i v h hv
    cases i with
    | zero =>
      rw [List.get?_cons_zero] at h
      injection h with h2
      rw [h2]
      dsimp only [List.enumFrom, List.foldl]
      apply mem_of_mem_prefix ?_ (oErrors_prefix_foldl offer_step_prefix _ _)
      cases v
      case obj kvs => simp [isObjJ] at hv
      all_goals simp [offer_item_step, oAddErr]
    | succ j =>
      rw [List.get?_cons_succ] at h
      dsimp only [List.enumFrom, List.foldl]
      rw [show n + (j + 1) + 1 = n + 1 + j + 1 from by omega]
      exact ih (n + 1) (offer_item_step r (n, y)) j v h hv

/-- C9 (amended): the four schema validators and the offer sub-validation
handle wrong-shaped substructure defensively, reporting each non-object
breadcrumb item, offer, FAQ entity and FAQ acceptedAnswer as its own
itemized error string; `validate_against_google_requirements`, however,
raises `TypeError` on a document whose `@type` is itself a list or dict
(see the counterexample), so "no validator call raises" holds only for
these substructure validators. -/
theorem claim_C9_itemized_errors :
    (∀ (schema : List (String × JValue)) (xs : List JValue) (i : Nat)
        (v : JValue),
      pyGet schema "itemListElement" = some (JValue.arr xs) →
      xs.get? i = some v → isObjJ v = false →
      s!"Breadcrumb item {i + 1} must be an object"
        ∈ (validate_breadcrumb_schema schema).errors)
    ∧ (∀ (xs : List JValue) (i : Nat) (v : JValue),
      xs.get? i = some v → isObjJ v = false →
      s!"Offer {i + 1} must be an object"
        ∈ (validate_offers (JValue.arr xs)).errors)
    ∧ (∀ (schema : List (String × JValue)) (xs : List JValue) (i : Nat)
        (v : JValue),
      pyGet schema "mainEntity" = some (JValue.arr xs) →
      xs.get? i = some v → isObjJ v = false →
      s!"FAQ item {i + 1} must be an object"
        ∈ (validate_faq_schema schema).errors)
    ∧ (∀ (schema : List (String × JValue)) (xs : List JValue) (i : Nat)
        (entity : List (String × JValue)) (answer : JValue),
      pyGet schema "mainEntity" = some (JValue.arr xs) →
      xs.get? i = some (JValue.obj entity) →
      pyGet entity "acceptedAnswer" = some answer → isObjJ answer = false →
      s!"FAQ item {i + 1} acceptedAnswer must be an object"
        ∈ (validate_faq_schema schema).errors) := by
  refine ⟨?_, ?_, ?_, ?_⟩
  · intro schema xs i v hget hi hv
    have hne : xs.isEmpty = false := by
      cases xs
      · simp at hi
      · rfl
    unfold validate_breadcrumb_schema
    dsimp only
    rw [hget]
    dsimp only
    rw [hne]
    simpa [List.enum] using breadcrumb_err_mem xs 0
      (if !pyEqStr (pyGet schema "@type") "BreadcrumbList" then
        vAddErr { valid := true, errors := [], warnings := [],
                  schema_type := "BreadcrumbList" }
          "Schema type must be \x27BreadcrumbList\x27"
      else { valid := true, errors := [], warnings := [],
             schema_type := "BreadcrumbList" }) i v hi hv
  · intro xs i v hi hv
    unfold validate_offers
    dsimp only
    simpa [List.enum] using offer_err_mem xs 0
      { valid := true, errors := [] } i v hi hv
  · intro schema xs i v hget hi hv
    have hne : xs.isEmpty = false := by
      cases xs
      · simp at hi
      · rfl
    unfold validate_faq_schema
    dsimp only
    rw [hget]
    dsimp only
    rw [hne]
    simpa [List.enum] using faq_err_mem xs 0
      (if !pyEqStr (pyGet schema "@type") "FAQPage" then
        vAddErr { valid := true, errors := [], warnings := [],
                  schema_type := "FAQPage" }
          "Schema type must be \x27FAQPage\x27"
      else { valid := true, errors := [], warnings := [],
             schema_type := "FAQPage" }) i v hi hv
  · intro schema xs i entity answer hget hi ha hv
    have hne : xs.isEmpty = false := by
      cases xs
      · simp at hi
      · rfl
    unfold validate_faq_schema
    dsimp only
    rw [hget]
    dsimp only
    rw [hne]
    simpa [List.enum] using faq_answer_err_mem xs 0
      (if !pyEqStr (pyGet schema "@type") "FAQPage" then
        vAddErr { valid := true, errors := [], warnings := [],
                  schema_type := "FAQPage" }
          "Schema type must be \x27FAQPage\x27"
      else { valid := true, errors := [], warnings := [],
             schema_type := "FAQPage" }) i entity answer hi ha hv

/-- C9 counterexample: `validate_against_google_requirements` raises
`TypeError` (modelled as `none`) on a document whose `@type` is a dict,
because the extracted type is used as a dictionary-membership key. -/
theorem claim_C9_counterexample_google_raises :
    validate_against_google_requirements
      [("@type", JValue.obj [("name", JValue.str "x")])] = none := rfl

/-- C9 witness: the itemized-error statements evaluated on concrete
malformed documents. -/
theorem claim_C9_witness :
    "Breadcrumb item 1 must be an object"
      ∈ (validate_breadcrumb_schema
          [("@type", JValue.str "BreadcrumbList"),
           ("itemListElement", JValue.arr [JValue.int 5])]).errors
    ∧ "Offer 2 must be an object"
      ∈ (validate_offers (JValue.arr [JValue.obj [], JValue.str "x"])).errors
    ∧ "FAQ item 1 must be an object"
      ∈ (validate_faq_schema [("mainEntity", JValue.arr [JValue.null])]).errors
    ∧ "FAQ item 1 acceptedAnswer must be an object"
      ∈ (validate_faq_schema
          [("mainEntity",
            JValue.arr
              [JValue.obj [("acceptedAnswer", JValue.str "yes")]])]).errors :=
  ⟨claim_C9_itemized_errors.1 _ _ 0 _ rfl rfl rfl,
   claim_C9_itemized_errors.2.1 _ 1 _ rfl rfl,
   claim_C9_itemized_errors.2.2.1 _ _ 0 _ rfl rfl rfl,
   claim_C9_itemized_errors.2.2.2 _ _ 0 _ _ rfl rfl rfl rfl⟩

/-! ## Google Rich Results eligibility (C4) -/

theorem google_required_foldl (schema : List (String × JValue)) :
    ∀ (fields : List String) (r : GoogleVResult),
      ((fields.foldl (google_required_step schema) r).eligible_for_rich_results
          = false)
        ↔ (r.eligible_for_rich_results = false
            ∨ ∃ f ∈ fields, presentAndTruthy schema f = false) := by
  intro fields
  induction fields with
  | nil => intro r; simp
  | cons f fs ih =>
    intro r
    rw [List.foldl_cons, ih]
    by_cases h : presentAndTruthy schema f = true
    · simp [google_required_step, h]
    · have h2 : presentAndTruthy schema f = false := by
        simpa using h
      simp [google_required_step, h2]

theorem google_recommended_elig (schema : List (String × JValue)) :
    ∀ (fields : List String) (r : GoogleVResult),
      (fields.foldl
        (google_recommended_step schema) r).eligible_for_rich_results
        = r.eligible_for_rich_results := by
  intro fields
  induction fields with
  | nil => intro r; rfl
  | cons f fs ih =>
    intro r
    rw [List.foldl_cons, ih]
    unfold google_recommended_step
    split <;> rfl

theorem google_warnings_if_elig (c : Bool) (X : GoogleVResult)
    (w : List String) :
    (if c then { X with warnings := w } else X).eligible_for_rich_results
      = X.eligible_for_rich_results := by
  split <;> rfl

/-- C4 (amended): for every input document whose extracted schema type is
hashable (not a list or dict — on those the function raises `TypeError`,
see the counterexample), the Google validator returns, and
`eligible_for_rich_results` is false exactly when some Google-required
field for the document's schema type is absent or falsy; recommended
fields never affect eligibility. -/
theorem claim_C4_google_eligibility (schema : List (String × JValue))
    (h : hashableKey (get_schema_type schema) = true) :
    ∃ r, validate_against_google_requirements schema = some r ∧
      (r.eligible_for_rich_results = false ↔
        ∃ f ∈ google_required_fields (get_schema_type schema),
          presentAndTruthy schema f = false) := by
  unfold validate_against_google_requirements google_required_fields
  dsimp only
  rw [h]
  simp only [Bool.not_true, Bool.false_eq_true, if_false]
  cases hst : get_schema_type schema with
  | none => exact ⟨_, rfl, by simp⟩
  | some v =>
    cases v with
    | null => exact ⟨_, rfl, by simp⟩
    | bool b => exact ⟨_, rfl, by simp⟩
    | int n => exact ⟨_, rfl, by simp⟩
    | arr xs =>
      rw [hst] at h
      simp [hashableKey] at h
    | obj kvs =>
      rw [hst] at h
      simp [hashableKey] at h
    | str st =>
      dsimp only
      cases hfind : GOOGLE_RICH_RESULTS_REQUIREMENTS.find?
          (fun e => e.1 = st) with
      | none => exact ⟨_, rfl, by simp⟩
      | some entry =>
        refine ⟨_, rfl, ?_⟩
        rw [google_warnings_if_elig, google_recommended_elig,
          google_required_foldl]
        simp

/-- C4 counterexample: on a document whose `@type` is a list, the Google
validator does not return a result at all (Python raises `TypeError` when
the unhashable extracted type is used as a dict-membership key). -/
theorem claim_C4_counterexample_unhashable_type :
    validate_against_google_requirements [("@type", JValue.arr [])]
      = none := rfl

/-- C4 witness: the amended statement evaluated on a Product document with
every Google-required field missing. -/
theorem claim_C4_witness :
    ∃ r, validate_against_google_requirements
        [("@type", JValue.str "Product")] = some r ∧
      (r.eligible_for_rich_results = false ↔
        ∃ f ∈ google_required_fields
            (get_schema_type [("@type", JValue.str "Product")]),
          presentAndTruthy [("@type", JValue.str "Product")] f = false) :=
  claim_C4_google_eligibility _ rfl
